import Mathlib

/-!
Verification of `trollius/coroutines.py` (the trollius coroutine adaptation
layer): a shallow embedding of the module's data model and operations, with
theorems settling the specification's claims about it.

Modelling conventions:
  * Python values are the inductive `PyVal`; futures and generator objects
    are opaque values identified by a natural number.
  * Python exceptions relevant to the module are `PyErr`.
  * A generator is modelled by its driver-visible interface: explicit state
    passing through `send`/`next`/`throw`/`close` operations, each returning
    the new state together with a `StepResult` (yielded value, termination
    value carried by `StopIteration`, or a propagated exception).
  * The synthesized trampoline of `coroutine` (the inner `coro` closure for a
    non-generator function) is the concrete state machine `TrampState` with
    step functions `tSend`/`tNext`/`tThrow`/`tClose`; since the wrapped
    function is pure in the model, its computed result is passed as the
    parameter `fres`.
  * The process-wide `_DEBUG` flag is passed explicitly as a `Bool`; where the
    source reads it at decoration time versus call time, the model takes two
    distinct flag parameters so the dependence can be stated exactly.
-/

namespace Trollius

/-- Python values as far as this module observes them. `future` models a
`futures.Future` instance, `genObj` a native generator object (both opaque,
tagged by an identifier); `fromWrapper` models a `FromWrapper` instance
holding its single `obj` slot. -/
inductive PyVal where
  | none
  | bool (b : Bool)
  | int (n : Int)
  | str (s : String)
  | tuple (vs : List PyVal)
  | future (id : Nat)
  | genObj (id : Nat)
  | fromWrapper (obj : PyVal)

/-- Python exceptions the module's control flow can surface to a driver. -/
inductive PyErr where
  | stopIteration (value : PyVal)
  | generatorExit
  | typeError
  | assertionError
  | exc (name : String) (payload : PyVal)

/-- `res is None` in the model (the resume value `next` supplies). -/
def isNone : PyVal → Bool
  | .none => true
  | _ => false

/-- `isinstance(res, futures.Future)` in the model. -/
def isFuture : PyVal → Bool
  | .future _ => true
  | _ => false

/-- `inspect.isgenerator(res)` in the model. -/
def isGenerator : PyVal → Bool
  | .genObj _ => true
  | _ => false

/-- The trampoline's delegation test:
`isinstance(res, futures.Future) or inspect.isgenerator(res)`. -/
def isAwaitable (v : PyVal) : Bool :=
  isFuture v || isGenerator v

/-- `isinstance(obj, FromWrapper)` in the model. -/
def isFromWrapper : PyVal → Bool
  | .fromWrapper _ => true
  | _ => false

/-- `FromWrapper.__init__`: if the argument is already a `FromWrapper` it is
unwrapped once, and the constructor asserts the unwrapped object is not
itself a `FromWrapper` (an `AssertionError` if it is). -/
def fromWrapperInit (obj : PyVal) : Except PyErr PyVal :=
  match obj with
  | .fromWrapper inner =>
      if isFromWrapper inner then .error .assertionError
      else .ok (.fromWrapper inner)
  | o => .ok (.fromWrapper o)

/-- `From(obj)`: with `_DEBUG` clear it returns `obj` unchanged; with `_DEBUG`
set it builds a `FromWrapper` around `obj`. The flag is the value of `_DEBUG`
at the moment `From` is called. -/
def From (debug : Bool) (obj : PyVal) : Except PyErr PyVal :=
  if !debug then .ok obj
  else fromWrapperInit obj

/-- `true` when a value is not a `FromWrapper` directly holding another
`FromWrapper` (the no-nesting shape the `FromWrapper` constructor asserts). -/
def noNestedTag : PyVal → Bool
  | .fromWrapper (.fromWrapper _) => false
  | _ => true

/-- The value carried by a `Return(*args)` signal: `None` for zero arguments,
the argument itself for one, the argument tuple otherwise. This arity
analysis is written identically in both construction strategies. -/
def returnValueOfArgs (args : List PyVal) : PyVal :=
  match args with
  | [] => .none
  | [v] => v
  | vs => .tuple vs

/-- The Python ≥ 3.3 construction strategy: `Return(*args)` is a plain
function returning `StopIteration(value)` (untracked, no `raised` flag). -/
def ReturnPy33 (args : List PyVal) : PyErr :=
  .stopIteration (returnValueOfArgs args)

/-- The value a `StopIteration`-like exception carries (its `value`
attribute); `None` for exceptions that carry no value. -/
def PyErr.stopValue : PyErr → PyVal
  | .stopIteration v => v
  | _ => .none

/-- The Python < 3.3 construction strategy: the `Return` class, a
`StopIteration` subclass holding the carried `value` and a `raised` flag. -/
structure TrackedReturn where
  value : PyVal
  raised : Bool

/-- `Return.__init__(*args)` of the tracked class: the `raised` flag starts
out `false`. -/
def ReturnTracked (args : List PyVal) : TrackedReturn :=
  { value := returnValueOfArgs args, raised := false }

/-- Diagnostic events the module can emit through `logger.error`. The
destructors only log; they never raise, which the result type
`List LogEvent` of the destructor models record. -/
inductive LogEvent where
  | returnNotRaised (value : PyVal)
  | coroNeverYielded (message : String)

/-- `Return.__del__` of the tracked class: logs one diagnostic mentioning the
carried value (`'Return(%r) used without raise' % self.value`) when the
signal was never raised, and nothing otherwise. -/
def TrackedReturn.destructorLogs (r : TrackedReturn) : List LogEvent :=
  if r.raised then []
  else [.returnNotRaised r.value]

/-- What one resume of a generator hands back to its driver: a yielded value,
a normal termination (`StopIteration` carrying the return value, raised by
`raise Return(res)` in the trampoline), or a propagated exception. -/
inductive StepResult where
  | yielded (v : PyVal)
  | done (v : PyVal)
  | error (e : PyErr)

/-- Execution states of the synthesized trampoline generator

```
def coro(*args, **kw):
    res = func(*args, **kw)
    if isinstance(res, futures.Future) or inspect.isgenerator(res):
        res = yield From(res)
    raise Return(res)
```

`start` is the freshly created generator (body not yet entered), `suspended`
is stopped at the single `yield`, `finished` is exhausted or closed. -/
inductive TrampState where
  | start
  | suspended
  | finished

/-- `gen.send(v)` on the trampoline whose wrapped pure function computed
`fres`, with `_DEBUG` equal to `debugAtCall` when the body runs `From(res)`.
From `start`, sending a non-`None` value is the CPython `TypeError` (the
generator stays unstarted); sending `None` runs the body to its first
suspension point or to termination. From `suspended`, the sent value becomes
the result of the `yield` expression and the body terminates with it via
`raise Return(res)`. A `finished` generator raises a bare `StopIteration`. -/
def tSend (debugAtCall : Bool) (fres : PyVal) (v : PyVal) :
    TrampState → TrampState × StepResult
  | .start =>
      if isNone v then
        if isAwaitable fres then
          match From debugAtCall fres with
          | .ok y => (.suspended, .yielded y)
          | .error e => (.finished, .error e)
        else (.finished, .done fres)
      else (.start, .error .typeError)
  | .suspended => (.finished, .done v)
  | .finished => (.finished, .error (.stopIteration .none))

/-- `next(gen)` on the trampoline: resume with `None`. -/
def tNext (debugAtCall : Bool) (fres : PyVal) :
    TrampState → TrampState × StepResult :=
  tSend debugAtCall fres .none

/-- `gen.throw(exc)` on the trampoline: the body installs no handler, so the
exception propagates to the driver and the generator finishes. -/
def tThrow (_debugAtCall : Bool) (_fres : PyVal) (e : PyErr) :
    TrampState → TrampState × StepResult
  | _ => (.finished, .error e)

/-- `gen.close()` on the trampoline: `GeneratorExit` is never caught by the
body, so closing always succeeds (returns `None`, no exception). -/
def tClose (_debugAtCall : Bool) (_fres : PyVal) :
    TrampState → TrampState × Option PyErr
  | _ => (.finished, Option.none)

/-- `gen.gi_frame.f_lasti` together with `gi_frame`'s presence: a fresh
generator's frame reports last instruction `-1`; once resumed, the
instruction pointer is a non-negative bytecode offset (the offset of the
`yield`, `2` here standing for any non-negative value); an exhausted or
closed generator has released its frame (`gi_frame is None`). -/
def tFrame : TrampState → Option Int
  | .start => some (-1)
  | .suspended => some 2
  | .finished => Option.none

/-- `gen.gi_running`: between driver calls a generator is never running. -/
def tRunning : TrampState → Bool := fun _ => false

/-- The driver-visible interface of a generator object with state type `σ`:
exactly the operations and attributes `CoroWrapper` touches on `self.gen`. -/
structure GenOps (σ : Type) where
  nextOp : σ → σ × StepResult
  sendOp : PyVal → σ → σ × StepResult
  throwOp : PyErr → σ → σ × StepResult
  closeOp : σ → σ × Option PyErr
  giFrame : σ → Option Int
  giRunning : σ → Bool
  giCode : σ → Nat

/-- The trampoline generator packaged behind the generic interface. The
`giCode` identity is the synthesized `coro` code object, one fixed value. -/
def trampOps (debugAtCall : Bool) (fres : PyVal) : GenOps TrampState :=
  { nextOp := tNext debugAtCall fres
    sendOp := tSend debugAtCall fres
    throwOp := tThrow debugAtCall fres
    closeOp := tClose debugAtCall fres
    giFrame := tFrame
    giRunning := tRunning
    giCode := fun _ => 0 }

/-- A `CoroWrapper` instance: the wrapped generator (state of type `σ`), the
originating function's display name (`self.func`, kept for the destructor's
diagnostic), and the creation call-stack snapshot captured by
`traceback.extract_stack` at construction, already in the display form
`traceback.format_list` produces for it. -/
structure CoroWrapperSt (σ : Type) where
  gen : σ
  func : String
  sourceTraceback : String

/-- `CoroWrapper.__next__` (also bound as `next`): `return next(self.gen)`. -/
def CoroWrapperSt.nextOp (g : GenOps σ) (w : CoroWrapperSt σ) :
    CoroWrapperSt σ × StepResult :=
  let r := g.nextOp w.gen
  ({ w with gen := r.1 }, r.2)

/-- The value `CoroWrapper.send(*value)` forwards: the argument tuple itself,
except that a single argument is unpacked (`if len(value) == 1: value =
value[0]`) — the CPython issue 21209 workaround. -/
def collapseSendArgs (value : List PyVal) : PyVal :=
  match value with
  | [v] => v
  | vs => .tuple vs

/-- `CoroWrapper.send(*value)`: `return self.gen.send(value)` after the
single-argument unpacking above. -/
def CoroWrapperSt.sendOp (g : GenOps σ) (value : List PyVal)
    (w : CoroWrapperSt σ) : CoroWrapperSt σ × StepResult :=
  let r := g.sendOp (collapseSendArgs value) w.gen
  ({ w with gen := r.1 }, r.2)

/-- `CoroWrapper.throw(exc)`: `return self.gen.throw(exc)`. -/
def CoroWrapperSt.throwOp (g : GenOps σ) (e : PyErr) (w : CoroWrapperSt σ) :
    CoroWrapperSt σ × StepResult :=
  let r := g.throwOp e w.gen
  ({ w with gen := r.1 }, r.2)

/-- `CoroWrapper.close()`: `return self.gen.close()`. -/
def CoroWrapperSt.closeOp (g : GenOps σ) (w : CoroWrapperSt σ) :
    CoroWrapperSt σ × Option PyErr :=
  let r := g.closeOp w.gen
  ({ w with gen := r.1 }, r.2)

/-- The `CoroWrapper.gi_frame` property: `return self.gen.gi_frame` (the
model keeps only `f_lasti`, the field the destructor inspects). -/
def CoroWrapperSt.giFrame (g : GenOps σ) (w : CoroWrapperSt σ) : Option Int :=
  g.giFrame w.gen

/-- The `CoroWrapper.gi_running` property: `return self.gen.gi_running`. -/
def CoroWrapperSt.giRunning (g : GenOps σ) (w : CoroWrapperSt σ) : Bool :=
  g.giRunning w.gen

/-- The `CoroWrapper.gi_code` property: `return self.gen.gi_code`. -/
def CoroWrapperSt.giCode (g : GenOps σ) (w : CoroWrapperSt σ) : Nat :=
  g.giCode w.gen

/-- The text of the `CoroWrapper.__del__` diagnostic. `funcDisplay` stands
for `events._format_callback(self.func, ())` — that helper is outside this
module; it renders the function's display name, so the name occurs verbatim
in the message. -/
def neverYieldedMessage (funcDisplay : String) (tb : String) : String :=
  "Coroutine " ++ funcDisplay ++
    " was never yielded from\nCoroutine object created at " ++
    "(most recent call last):\n" ++ tb

/-- Modelled from the spec: `events._format_callback` is not among the
sources; the spec only requires the diagnostic to contain the originating
function's display name, so the model renders the name followed by an empty
argument list. -/
def formatCallback (funcName : String) : String :=
  funcName ++ "()"

/-- `CoroWrapper.__del__`: read `self.gen.gi_frame`; if the frame is still
present and its last instruction is `-1` (the body never ran), log the
never-yielded diagnostic once; otherwise log nothing. The destructor only
logs — it raises nothing. -/
def CoroWrapperSt.destructorLogs (g : GenOps σ) (w : CoroWrapperSt σ) :
    List LogEvent :=
  match g.giFrame w.gen with
  | some lasti =>
      if lasti = -1 then
        [.coroNeverYielded
          (neverYieldedMessage (formatCallback w.func) w.sourceTraceback)]
      else []
  | Option.none => []

/-- One driver operation on a coroutine object: the four operations the spec
calls resume-with-no-value, resume-with-value, raise-into and abort. -/
inductive DriverCmd where
  | next
  | send (v : PyVal)
  | throwInto (e : PyErr)
  | close

/-- The driver-visible outcome of one operation (`close` returns `None` or
raises, the other operations return a `StepResult`). -/
inductive OpResult where
  | step (r : StepResult)
  | closed (e : Option PyErr)

/-- Run one driver operation directly against a bare generator. -/
def stepCmd (g : GenOps σ) (c : DriverCmd) (s : σ) : σ × OpResult :=
  match c with
  | .next => let r := g.nextOp s; (r.1, .step r.2)
  | .send v => let r := g.sendOp v s; (r.1, .step r.2)
  | .throwInto e => let r := g.throwOp e s; (r.1, .step r.2)
  | .close => let r := g.closeOp s; (r.1, .closed r.2)

/-- Run a driver script directly against a bare generator, collecting the
outcome of every operation and the final state. -/
def runGen (g : GenOps σ) : List DriverCmd → σ → List OpResult × σ
  | [], s => ([], s)
  | c :: cs, s =>
      let r := stepCmd g c s
      let rest := runGen g cs r.1
      (r.2 :: rest.1, rest.2)

/-- Run one driver operation through a `CoroWrapper` (a `send v` from the
driver is the one-argument call `w.send(v)`). -/
def stepCmdWrapped (g : GenOps σ) (c : DriverCmd) (w : CoroWrapperSt σ) :
    CoroWrapperSt σ × OpResult :=
  match c with
  | .next => let r := w.nextOp g; (r.1, .step r.2)
  | .send v => let r := w.sendOp g [v]; (r.1, .step r.2)
  | .throwInto e => let r := w.throwOp g e; (r.1, .step r.2)
  | .close => let r := w.closeOp g; (r.1, .closed r.2)

/-- Run a driver script through a `CoroWrapper`. -/
def runWrapped (g : GenOps σ) :
    List DriverCmd → CoroWrapperSt σ → List OpResult × CoroWrapperSt σ
  | [], w => ([], w)
  | c :: cs, w =>
      let r := stepCmdWrapped g c w
      let rest := runWrapped g cs r.1
      (r.2 :: rest.1, rest.2)

/-- A Python callable as `coroutine` inspects and produces it:
whether `inspect.isgeneratorfunction` holds of it, its `_is_coroutine`
attribute (`Option.none` when the attribute is absent, as on every unmarked
plain callable), and which factory closure it is — `routesThroughWrapper`
records whether calling it boxes the generator in a `CoroWrapper`, i.e.
whether it is the debug `wrapper` closure rather than bare `coro`. -/
structure PyCallable where
  isGeneratorFunction : Bool
  coroutineAttr : Option Bool
  routesThroughWrapper : Bool
  synthesizedTrampoline : Bool

/-- An unmarked plain callable: no `_is_coroutine` attribute, calls are not
routed through `CoroWrapper`, no synthesized trampoline. -/
def plainCallable (isGenFunc : Bool) : PyCallable :=
  { isGeneratorFunction := isGenFunc
    coroutineAttr := Option.none
    routesThroughWrapper := false
    synthesizedTrampoline := false }

/-- The `coroutine` decorator. `debugAtDecoration` is `_DEBUG` as read by the
`if not _DEBUG` at decoration time: it alone decides whether the returned
factory is bare `coro` or the `CoroWrapper`-boxing `wrapper`. A generator
function is kept as `coro` unchanged; otherwise `coro` is the synthesized
trampoline (`tSend` etc.) — either way the factory's calls produce a
generator, so the result is a generator function. Finally the factory is
tagged: `wrapper._is_coroutine = True`. -/
def coroutine (debugAtDecoration : Bool) (func : PyCallable) : PyCallable :=
  { isGeneratorFunction := true
    coroutineAttr := some true
    routesThroughWrapper := debugAtDecoration
    synthesizedTrampoline := !func.isGeneratorFunction }

/-- `iscoroutinefunction(func)`: `getattr(func, '_is_coroutine', False)`. -/
def iscoroutinefunction (func : PyCallable) : Bool :=
  func.coroutineAttr.getD false

/-- The structural shape of a runtime object as the classifier inspects it:
is it a trollius `CoroWrapper` instance, an `asyncio.tasks.CoroWrapper`
instance, a native generator object. -/
structure RuntimeObj where
  isCoroWrapperInst : Bool
  isAsyncioCoroWrapperInst : Bool
  isGeneratorObj : Bool

/-- `isinstance(obj, _COROUTINE_TYPES)`: when the `asyncio` import succeeded
the tuple is `(CoroWrapper, asyncio.tasks.CoroWrapper)`, otherwise just
`CoroWrapper`. -/
def isCoroutineTypesInst (asyncioAvailable : Bool) (o : RuntimeObj) : Bool :=
  if asyncioAvailable then
    o.isCoroWrapperInst || o.isAsyncioCoroWrapperInst
  else
    o.isCoroWrapperInst

/-- `iscoroutine(obj)`:
`isinstance(obj, _COROUTINE_TYPES) or inspect.isgenerator(obj)`. -/
def iscoroutine (asyncioAvailable : Bool) (o : RuntimeObj) : Bool :=
  isCoroutineTypesInst asyncioAvailable o || o.isGeneratorObj

/-- Drive a fresh trampoline to completion: first resume with `next`; if it
suspends (yielding the delegation target), resume once more sending
`resolved`, the value the awaitable resolves to. The result is what the
driver observes last. -/
def driveToCompletion (debugAtCall : Bool) (fres resolved : PyVal) :
    StepResult :=
  match tNext debugAtCall fres .start with
  | (s, .yielded _) => (tSend debugAtCall fres resolved s).2
  | (_, r) => r

/-- The scenario function `add_one(n) = n + 1` (a plain non-generator
function returning a plain value). -/
def addOne (v : PyVal) : PyVal :=
  match v with
  | .int n => .int (n + 1)
  | _ => .none

/-- The driver-observable face of one call of a marked factory: whether the
returned object is boxed in a `CoroWrapper` (decided by the factory closure,
i.e. at decoration time) and the outcomes of driving the produced trampoline
with a script (the trampoline's `From(res)` reads `_DEBUG` at call time,
`debugAtCall`). `fres` is the value the wrapped pure function computes for
this call's arguments. Boxing is observation-neutral for the driver script
itself (`CoroWrapper` forwards), so the trace is taken on the trampoline. -/
def callObservation (factory : PyCallable) (debugAtCall : Bool)
    (fres : PyVal) (script : List DriverCmd) : Bool × List OpResult :=
  (factory.routesThroughWrapper,
   (runGen (trampOps debugAtCall fres) script .start).1)

/-! ## Helper lemmas -/

/-- On an awaitable (which is never a `FromWrapper`), `From` succeeds: it
returns the argument unchanged without debug and the wrapped argument with
debug. -/
lemma From_awaitable (d : Bool) (x : PyVal) (h : isAwaitable x = true) :
    From d x = .ok (cond d (.fromWrapper x) x) := by
  cases d <;> cases x <;>
    simp_all [From, fromWrapperInit, isAwaitable, isFuture, isGenerator,
      isFromWrapper]

/-- Each driver operation taken through the wrapper forwards to the bare
generator: same new generator state, same outcome, wrapper metadata
untouched. -/
lemma stepCmdWrapped_forwards (g : GenOps σ) (c : DriverCmd)
    (w : CoroWrapperSt σ) :
    (stepCmdWrapped g c w).1.gen = (stepCmd g c w.gen).1 ∧
    (stepCmdWrapped g c w).2 = (stepCmd g c w.gen).2 ∧
    (stepCmdWrapped g c w).1.func = w.func ∧
    (stepCmdWrapped g c w).1.sourceTraceback = w.sourceTraceback := by
  cases c <;>
    simp [stepCmdWrapped, stepCmd, CoroWrapperSt.nextOp, CoroWrapperSt.sendOp,
      CoroWrapperSt.throwOp, CoroWrapperSt.closeOp, collapseSendArgs]

/-- Driving a script through the wrapper produces the same outcome trace and
the same final generator state as driving the bare generator. -/
lemma runWrapped_eq_runGen (g : GenOps σ) (script : List DriverCmd)
    (w : CoroWrapperSt σ) :
    (runWrapped g script w).1 = (runGen g script w.gen).1 ∧
    (runWrapped g script w).2.gen = (runGen g script w.gen).2 := by
  induction script generalizing w with
  | nil => exact ⟨rfl, rfl⟩
  | cons c cs ih =>
      have hf := stepCmdWrapped_forwards g c w
      have ihw := ih (stepCmdWrapped g c w).1
      constructor
      · simp only [runWrapped, runGen]
        rw [hf.2.1, ihw.1, hf.1]
      · simp only [runWrapped, runGen]
        rw [ihw.2, hf.1]

/-! ## The claims -/

/-- C1: for a non-generator function marked by `coroutine`, the synthesized
trampoline terminates with the function's own computed result `fres`: a
plain (non-awaitable) result is the termination value of the very first
resume with no suspension; an awaitable result makes the trampoline suspend
exactly once, yielding the delegation target (`From` of the awaitable), and
the next resume terminates it with whatever value the awaitable resolved to.
In particular the marked `add_one` driven to completion on input `5` ends
with value `6`. -/
theorem coro_trampoline_result (d : Bool) (fres : PyVal) :
    (isAwaitable fres = false →
      tNext d fres .start = (.finished, .done fres)) ∧
    (isAwaitable fres = true →
      tNext d fres .start
          = (.suspended, .yielded (cond d (.fromWrapper fres) fres)) ∧
      ∀ resolved,
        tSend d fres resolved .suspended = (.finished, .done resolved)) ∧
    driveToCompletion d (addOne (.int 5)) .none = .done (.int 6) := by
  refine ⟨?_, ?_, rfl⟩
  · intro h
    simp [tNext, tSend, isNone, h]
  · intro h
    refine ⟨?_, fun resolved => rfl⟩
    simp [tNext, tSend, isNone, h, From_awaitable d fres h]

/-- Witness for C1 at concrete inputs: a plain result `7` terminates the
first resume directly; a future result suspends once with the tagged future
and then terminates with the resolved value `"x"`. -/
theorem coro_trampoline_result_witness :
    tNext false (.int 7) .start = (.finished, .done (.int 7)) ∧
    tNext true (.future 0) .start
      = (.suspended, .yielded (.fromWrapper (.future 0))) ∧
    tSend true (.future 0) (.str "x") .suspended
      = (.finished, .done (.str "x")) := by
  have h1 := (coro_trampoline_result false (.int 7)).1 rfl
  have h2 := (coro_trampoline_result true (.future 0)).2.1 rfl
  exact ⟨h1, h2.1, h2.2 (.str "x")⟩

/-- Every value the `FromWrapper` constructor successfully builds is a
non-nested tag. -/
lemma fromWrapperInit_noNested (obj y : PyVal)
    (h : fromWrapperInit obj = Except.ok y) : noNestedTag y = true := by
  rcases obj with _ | b | n | s | vs | i | j | inner
  case fromWrapper =>
    rcases inner with _ | b | n | s | vs | i | j | z
    case fromWrapper => simp [fromWrapperInit, isFromWrapper] at h
    all_goals simp [fromWrapperInit, isFromWrapper] at h
    all_goals subst h
    all_goals rfl
  all_goals simp [fromWrapperInit] at h
  all_goals subst h
  all_goals rfl

/-- C3: `From` is idempotent and never nests. Without debug it returns any
object unchanged (no side effect, no failure); with debug every successful
result is a non-nested tag; and on any awaitable, under either flag, it
succeeds, applying it again to its own output changes nothing, and the
output carries no nested tag. -/
theorem From_tag_idempotent (d : Bool) (x obj : PyVal) :
    From false obj = .ok obj ∧
    (∀ y, From true obj = .ok y → noNestedTag y = true) ∧
    (isAwaitable x = true →
      From d x = .ok (cond d (.fromWrapper x) x) ∧
      From d (cond d (.fromWrapper x) x) = .ok (cond d (.fromWrapper x) x) ∧
      noNestedTag (cond d (.fromWrapper x) x) = true) := by
  refine ⟨rfl, ?_, ?_⟩
  · intro y hy
    have hy' : fromWrapperInit obj = Except.ok y := hy
    exact fromWrapperInit_noNested obj y hy'
  · intro h
    refine ⟨From_awaitable d x h, ?_, ?_⟩ <;>
      cases d <;> cases x <;>
        simp_all [From, fromWrapperInit, isAwaitable, isFuture, isGenerator,
          isFromWrapper, noNestedTag]

/-- Witness for C3 at concrete inputs: tagging a generator object yields a
non-nested tag, and tagging a future in debug mode is idempotent. -/
theorem From_tag_idempotent_witness :
    noNestedTag (.fromWrapper (.genObj 1)) = true ∧
    From true (.future 0) = .ok (.fromWrapper (.future 0)) ∧
    From true (.fromWrapper (.future 0)) = .ok (.fromWrapper (.future 0)) := by
  have h := From_tag_idempotent true (.future 0) (.genObj 1)
  have h3 := h.2.2 rfl
  exact ⟨h.2.1 (.fromWrapper (.genObj 1)) rfl, h3.1, h3.2.1⟩

/-- C4: `Return` follows the arity rule in both construction strategies —
zero arguments carry `None`, one argument carries that value, two or more
carry the ordered tuple of all of them — and the Python ≥ 3.3 untracked form
and the tracked class carry identical values for every argument list. -/
theorem Return_arity_value_compatible (args : List PyVal) :
    (ReturnPy33 args).stopValue = (ReturnTracked args).value ∧
    (args = [] → (ReturnTracked args).value = .none) ∧
    (∀ v, args = [v] → (ReturnTracked args).value = v) ∧
    (2 ≤ args.length → (ReturnTracked args).value = .tuple args) := by
  refine ⟨rfl, ?_, ?_, ?_⟩
  · rintro rfl; rfl
  · rintro v rfl; rfl
  · intro h
    cases args with
    | nil => simp at h
    | cons a t =>
        cases t with
        | nil => simp at h
        | cons b l => rfl

/-- Witness for C4 at concrete argument lists of length 0, 1 and 2. -/
theorem Return_arity_value_compatible_witness :
    (ReturnTracked []).value = .none ∧
    (ReturnTracked [.int 3]).value = .int 3 ∧
    (ReturnTracked [.int 3, .str "a"]).value = .tuple [.int 3, .str "a"] := by
  refine ⟨(Return_arity_value_compatible []).2.1 rfl,
    (Return_arity_value_compatible [.int 3]).2.2.1 (.int 3) rfl,
    (Return_arity_value_compatible [.int 3, .str "a"]).2.2.2 (by decide)⟩

/-- C5: discarding a tracked `Return` that was never raised logs exactly one
diagnostic mentioning the carried value; discarding one whose `raised` flag
was set logs nothing. The destructor only logs (its result is a log list,
never an exception). -/
theorem Return_destructor_diagnostic (r : TrackedReturn) :
    (r.raised = false →
      r.destructorLogs = [.returnNotRaised r.value] ∧
      r.destructorLogs.length = 1) ∧
    (r.raised = true → r.destructorLogs = []) := by
  constructor
  · intro h
    simp [TrackedReturn.destructorLogs, h]
  · intro h
    simp [TrackedReturn.destructorLogs, h]

/-- Witness for C5: an undelivered tracked signal carrying `4` logs exactly
its one diagnostic; a delivered one logs nothing. -/
theorem Return_destructor_diagnostic_witness :
    (TrackedReturn.mk (.int 4) false).destructorLogs
      = [.returnNotRaised (.int 4)] ∧
    (TrackedReturn.mk (.int 4) true).destructorLogs = [] :=
  ⟨((Return_destructor_diagnostic ⟨.int 4, false⟩).1 rfl).1,
   (Return_destructor_diagnostic ⟨.int 4, true⟩).2 rfl⟩

/-- C6: a debug-wrapped trampoline destroyed while its generator is still at
the entry point (never successfully resumed, frame present with last
instruction `-1`) logs exactly the one never-yielded diagnostic, whose
message contains the originating function's name; in any other generator
state the destructor logs nothing; the ordinary first resume leaves the
entry state, and once left, no driver operation returns to it — so a
computation resumed at least once (in particular one driven to termination)
is destroyed silently. -/
theorem coroWrapper_destructor_diagnostic (d : Bool) (fres : PyVal)
    (w : CoroWrapperSt TrampState) :
    (w.gen = .start →
      CoroWrapperSt.destructorLogs (trampOps d fres) w
          = [.coroNeverYielded
              (neverYieldedMessage (formatCallback w.func)
                w.sourceTraceback)] ∧
      List.IsInfix w.func.data
        (neverYieldedMessage (formatCallback w.func)
          w.sourceTraceback).data) ∧
    (w.gen ≠ .start →
      CoroWrapperSt.destructorLogs (trampOps d fres) w = []) ∧
    (stepCmd (trampOps d fres) .next .start).1 ≠ .start ∧
    (∀ c s, s ≠ .start → (stepCmd (trampOps d fres) c s).1 ≠ .start) := by
  refine ⟨?_, ?_, ?_, ?_⟩
  · intro h
    constructor
    · simp [CoroWrapperSt.destructorLogs, trampOps, tFrame, h]
    · refine ⟨"Coroutine ".data,
        ("()" ++ " was never yielded from\nCoroutine object created at " ++
          "(most recent call last):\n" ++ w.sourceTraceback).data, ?_⟩
      simp [neverYieldedMessage, formatCallback, String.data_append]
  · intro h
    cases hg : w.gen <;>
      simp_all [CoroWrapperSt.destructorLogs, trampOps, tFrame]
  · cases haw : isAwaitable fres <;>
      simp [stepCmd, trampOps, tNext, tSend, isNone, haw, From_awaitable]
  · intro c s hs
    cases c <;> cases s <;>
      simp_all [stepCmd, trampOps, tNext, tSend, tThrow, tClose, isNone]

/-- Witness for C6 at a concrete wrapper around the `relay` trampoline: a
never-resumed wrapper logs its one diagnostic, a finished one logs
nothing. -/
theorem coroWrapper_destructor_diagnostic_witness :
    CoroWrapperSt.destructorLogs (trampOps false (.int 0))
        ⟨.start, "relay", "  File a, line 1\n"⟩
      = [.coroNeverYielded
          (neverYieldedMessage (formatCallback "relay")
            "  File a, line 1\n")] ∧
    CoroWrapperSt.destructorLogs (trampOps false (.int 0))
        ⟨.finished, "relay", "  File a, line 1\n"⟩ = [] := by
  have h1 := ((coroWrapper_destructor_diagnostic false (.int 0)
    ⟨.start, "relay", "  File a, line 1\n"⟩).1 rfl).1
  have h2 := (coroWrapper_destructor_diagnostic false (.int 0)
    ⟨.finished, "relay", "  File a, line 1\n"⟩).2.1
    (fun h => TrampState.noConfusion h)
  exact ⟨h1, h2⟩

/-- C7: `CoroWrapper` is a transparent proxy. Any driver script — any mix of
resume-with-no-value, resume-with-value, raise-into and abort — run through
the wrapper produces the very outcome trace (results and propagated
failures alike) and final generator state that running it on the bare
generator produces, for an arbitrary generator; and the wrapper's
`gi_frame`, `gi_running` and `gi_code` are the generator's own. -/
theorem coroWrapper_transparent_proxy (σ : Type) (g : GenOps σ)
    (script : List DriverCmd) (w : CoroWrapperSt σ) :
    (runWrapped g script w).1 = (runGen g script w.gen).1 ∧
    (runWrapped g script w).2.gen = (runGen g script w.gen).2 ∧
    CoroWrapperSt.giFrame g w = g.giFrame w.gen ∧
    CoroWrapperSt.giRunning g w = g.giRunning w.gen ∧
    CoroWrapperSt.giCode g w = g.giCode w.gen :=
  ⟨(runWrapped_eq_runGen g script w).1,
   (runWrapped_eq_runGen g script w).2, rfl, rfl, rfl⟩

/-- C8: every factory `coroutine` produces satisfies `iscoroutinefunction`,
whatever the decoration-time debug flag and whichever synthesis branch was
taken (the branch is decided by `func.isGeneratorFunction`); a callable
without the `_is_coroutine` attribute never does. -/
theorem iscoroutinefunction_classifies (d : Bool) (func g : PyCallable) :
    iscoroutinefunction (coroutine d func) = true ∧
    (g.coroutineAttr = Option.none → iscoroutinefunction g = false) := by
  constructor
  · rfl
  · intro h
    simp [iscoroutinefunction, h]

/-- Witness for C8: a marked plain function (debug on) is recognized; the
unmarked plain callable is not. -/
theorem iscoroutinefunction_classifies_witness :
    iscoroutinefunction (coroutine true (plainCallable false)) = true ∧
    iscoroutinefunction (plainCallable false) = false :=
  ⟨(iscoroutinefunction_classifies true (plainCallable false)
      (plainCallable false)).1,
   (iscoroutinefunction_classifies true (plainCallable false)
      (plainCallable false)).2 rfl⟩

/-- C9: with the `asyncio` interoperability import available, `iscoroutine`
holds exactly of the three shapes — a trollius `CoroWrapper` instance, an
`asyncio.tasks.CoroWrapper` instance, or a native generator object — and an
object that is none of the three is rejected whether or not `asyncio` is
available. -/
theorem iscoroutine_classifies (o : RuntimeObj) :
    iscoroutine true o
        = (o.isCoroWrapperInst || o.isAsyncioCoroWrapperInst ||
            o.isGeneratorObj) ∧
    (o.isCoroWrapperInst = false → o.isAsyncioCoroWrapperInst = false →
      o.isGeneratorObj = false → ∀ a, iscoroutine a o = false) := by
  constructor
  · simp [iscoroutine, isCoroutineTypesInst]
  · intro h1 h2 h3 a
    cases a <;> simp [iscoroutine, isCoroutineTypesInst, h1, h2, h3]

/-- Witness for C9: the object with none of the three shapes is rejected. -/
theorem iscoroutine_classifies_witness :
    iscoroutine true ⟨false, false, false⟩ = false :=
  (iscoroutine_classifies ⟨false, false, false⟩).2 rfl rfl rfl true

/-- C10: `CoroWrapper.send` is variadic with an arity quirk: one argument
forwards that argument's value, zero arguments forward the empty tuple `()`
(not a no-value resume), and two or more arguments forward the whole
argument tuple as one value; the forwarded value is exactly what the
wrapped generator's `send` receives. -/
theorem coroWrapper_send_arity (σ : Type) (g : GenOps σ)
    (w : CoroWrapperSt σ) (v a b : PyVal) (l args : List PyVal) :
    collapseSendArgs [v] = v ∧
    collapseSendArgs [] = .tuple [] ∧
    collapseSendArgs (a :: b :: l) = .tuple (a :: b :: l) ∧
    (CoroWrapperSt.sendOp g args w).2
        = (g.sendOp (collapseSendArgs args) w.gen).2 ∧
    (CoroWrapperSt.sendOp g args w).1.gen
        = (g.sendOp (collapseSendArgs args) w.gen).1 :=
  ⟨rfl, rfl, rfl, rfl, rfl⟩

/-- C2 counterexample: the claim fails on the code. Take a non-generator
function marked while `_DEBUG` is clear, returning a future. Two calls of
the same marked factory that differ only in the flag's value at call time
are driver-distinguishable: the trampoline's `From(res)` reads the live
flag, so one call yields the bare future and the other yields it boxed in a
`FromWrapper` — a functional difference, not a diagnostic. -/
theorem coroutine_debug_calltime_counterexample :
    callObservation (coroutine false (plainCallable false)) false
        (.future 0) [.next]
      ≠ callObservation (coroutine false (plainCallable false)) true
        (.future 0) [.next] := by
  simp [callObservation, coroutine, plainCallable, runGen, stepCmd,
    trampOps, tNext, tSend, From, fromWrapperInit, isNone, isAwaitable,
    isFuture, isGenerator, isFromWrapper]

/-- C2 amended: only the routing through `CoroWrapper` is fixed at
decoration time — a marked factory boxes its calls iff `_DEBUG` was set when
`coroutine` ran, independent of the call-time flag — and the final
termination value of a driven call is also independent of the call-time
flag; but the delegation value the trampoline yields follows the flag at
call time (`FromWrapper`-boxed when set, the raw awaitable when clear). -/
theorem coroutine_debug_decoration_routing (dDec dCall dCall' : Bool)
    (func : PyCallable) (fres resolved : PyVal)
    (script : List DriverCmd) :
    (callObservation (coroutine dDec func) dCall fres script).1 = dDec ∧
    driveToCompletion dCall fres resolved
        = driveToCompletion dCall' fres resolved ∧
    (isAwaitable fres = true →
      tNext dCall fres .start
          = (.suspended, .yielded (cond dCall (.fromWrapper fres) fres))) := by
  refine ⟨rfl, ?_, ?_⟩
  · cases haw : isAwaitable fres <;>
      simp [driveToCompletion, tNext, tSend, isNone, haw, From_awaitable]
  · intro h
    simp [tNext, tSend, isNone, h, From_awaitable dCall fres h]

/-- Witness for the amended C2 at a concrete call: with the call-time flag
set, the trampoline over a future yields the boxed future. -/
theorem coroutine_debug_decoration_routing_witness :
    tNext true (.future 0) .start
      = (.suspended, .yielded (.fromWrapper (.future 0))) :=
  (coroutine_debug_decoration_routing false true true
    (plainCallable false) (.future 0) .none []).2.2 rfl

end Trollius
